import Mathlib

/-!
Verification of the Telkom_Hack chat relay: a shallow embedding of the two
provider adapters (`openai_integration.py`, `gemini_integration.py`) and the
session/route layer (`app.py`), with theorems settling the specification
claims about quota fallback, context shaping, PDF truncation, audio
validation, response normalization, sequence numbering and language
detection.
-/

/-- Python substring test `needle in haystack` at the head of a char list. -/
def charsMatch : List Char → List Char → Bool
  | [], _ => true
  | _ :: _, [] => false
  | a :: as, b :: bs => a == b && charsMatch as bs

/-- Python substring containment `needle in haystack` over char lists. -/
def charsContain (needle : List Char) : List Char → Bool
  | [] => charsMatch needle []
  | c :: cs => charsMatch needle (c :: cs) || charsContain needle cs

/-- Python `needle in haystack` for strings. -/
def pyContains (needle haystack : String) : Bool :=
  charsContain needle.toList haystack.toList

/-- Python slice `s[:n]`: the first `n` characters of `s`. -/
def pySlice (s : String) (n : Nat) : String :=
  String.mk (s.toList.take n)

/-- Python slice `l[-n:]`: the last `n` elements of `l` (all of `l` when shorter). -/
def pyLast {α : Type} (n : Nat) (l : List α) : List α :=
  l.drop (l.length - n)

/-- Python `s.lower()`, character by character. -/
def pyLower (s : String) : String :=
  String.mk (s.toList.map Char.toLower)

/-- Python `s.strip()`: drop leading and trailing whitespace. -/
def pyStrip (s : String) : String :=
  String.mk
    (((s.toList.dropWhile Char.isWhitespace).reverse.dropWhile
      Char.isWhitespace).reverse)

/-! ## Language detection (`openai_integration.py`, `detect_language` and the
`language_patterns` dictionary from `OpenAIIntegration.__init__`). -/

/-- The `language_patterns` dictionary, in Python insertion order
(afrikaans, zulu, english). -/
def languagePatterns : List (String × List String) :=
  [("afrikaans", ["ek", "jy", "dis", "nie", "wat", "hoe", "waar", "wanneer",
                  "hoekom", "asseblief", "dankie"]),
   ("zulu", ["ngi", "uku", "ngi-", "isi", "aba", "ama", "sawubona",
             "ngiyabonga", "unjani", "kunjani"]),
   ("english", ["the", "and", "you", "how", "what", "where", "when", "why",
                "please", "thank"])]

/-- `sum(1 for pattern in patterns if pattern in text_lower)`: the number of
patterns occurring as substrings of the (already lowercased) text. -/
def langScore (textLower : String) (patterns : List String) : Nat :=
  (patterns.filter (fun p => pyContains p textLower)).length

/-- Python `max(language_scores, key=language_scores.get)` over an ordered
association list: the first key attaining the maximal value (ties keep the
earlier key, matching CPython's `max` on a dict preserving insertion order).
The result is paired with its score, which equals `language_scores[key]`
since the keys are distinct. -/
def pyMaxByValue (l : List (String × Nat)) : String × Nat :=
  l.foldl (fun best kv => if kv.2 > best.2 then kv else best)
    (l.headD ("english", 0))

/-- `detect_language`: empty text defaults to english; otherwise score each
language's keyword list against the lowercased text, take the
insertion-order-first maximal language, and fall back to english when the
maximal score is zero. -/
def detect_language (text : String) : String :=
  if text = "" then "english"
  else
    let textLower := pyLower text
    let scores := languagePatterns.map (fun lp => (lp.1, langScore textLower lp.2))
    let best := pyMaxByValue scores
    if best.2 > 0 then best.1 else "english"

/-- The score `detect_language` computes for one language on a given text. -/
def scoreOf (text : String) (lang : String) : Nat :=
  langScore (pyLower text) ((languagePatterns.lookup lang).getD [])

/-! ## Normalized response dictionaries.

Every adapter operation returns a Python dict.  We model the union of the
key sets appearing in the source as a structure with `Option` fields: `none`
means the key is absent from the dict.  `success` and `response` and
`timestamp` are present in every dict the four modality operations return,
so they are plain fields.  Wall-clock timestamps are environmental inputs,
passed in as the `now` argument of each operation. -/

structure Resp where
  success : Bool
  response : String
  timestamp : String
  model_used : Option String := none
  error : Option String := none
  error_type : Option String := none
  detected_language : Option String := none
  transcription : Option String := none
  message_type : Option String := none
  pdf_text_length : Option Nat := none
  audio_info : Option (Nat × String) := none
deriving DecidableEq, Repr

/-! ## OpenAI-compatible adapter (`openai_integration.py`).

Model names from `self.models` in `OpenAIIntegration.__init__`. -/

def primaryModel : String := "openai/gpt-oss-120b:free"

def costEfficientModel : String := "openai/gpt-oss-120b:free"

def fallbackModel : String := "mistralai/mistral-7b-instruct:free"

def visionModel : String := "google/gemini-pro-vision"

def audioModel : String := "openai/whisper-1"

/-- Adapter mutable state: the `api_available` flag set by the construction
probe and cleared on quota errors. -/
structure OAIState where
  api_available : Bool
deriving DecidableEq, Repr

/-- A `{role, content}` entry of the `messages` list sent to the provider.
Content is `Option String` because the route layer can produce `None`
content (see `buildContext`). -/
abbrev RoleMsg : Type := String × Option String

/-- The network is the environment: attempt index and model name and the
messages payload map to either the completion's content string
(`response['choices'][0]['message']['content']`) or the `str` of the raised
exception. -/
abbrev Oracle : Type := Nat → String → List RoleMsg → Except String String

/-- `"insufficient_quota" in error_str or "429" in error_str`. -/
def quotaSig (e : String) : Bool :=
  pyContains "insufficient_quota" e || pyContains "429" e

/-- The system prompt from `_create_telkom_system_prompt` (its exact text is
irrelevant to every claim; we keep its leading line as the marker of the
constant). -/
def telkomSystemPrompt : String :=
  "You are T-Help, an expert Telkom technical support assistant."

/-- The loop body of `_make_api_call` over `models_to_try`.  `lastM` is
`models_to_try[-1]`, compared by string equality as in the source; `idx`
numbers the network attempts; the returned list records the models attempted
in order.  A quota-signature failure clears `api_available` and re-raises;
a non-quota failure on the last model re-raises; otherwise the next model is
tried (the `rate_limit` branch only sleeps, which is unobservable here). -/
def tryModels (o : Oracle) (msgs : List RoleMsg) (lastM : String) :
    Nat → Option String → List String → OAIState →
    Except String String × OAIState × List String
  | _, lastErr, [], st => (.error (lastErr.getD "no models"), st, [])
  | idx, _, m :: rest, st =>
    match o idx m msgs with
    | .ok c => (.ok c, st, [m])
    | .error e =>
      if quotaSig e then (.error e, { api_available := false }, [m])
      else if m == lastM then (.error e, st, [m])
      else
        let r := tryModels o msgs lastM (idx + 1) (some e) rest st
        (r.1, r.2.1, m :: r.2.2)

/-- `_make_api_call`: raise immediately when the API is flagged unavailable;
otherwise build the candidate list (`cost_efficient`, then `fallback`,
prefixed by `primary` when the requested model is the primary one) and walk
it with `tryModels`. -/
def makeApiCall (st : OAIState) (o : Oracle) (requestedModel : String)
    (msgs : List RoleMsg) : Except String String × OAIState × List String :=
  if st.api_available then
    let ms := if requestedModel == primaryModel
      then primaryModel :: [costEfficientModel, fallbackModel]
      else [costEfficientModel, fallbackModel]
    tryModels o msgs (ms.getLastD "") 0 none ms st
  else (.error "OpenAI API quota exceeded or unavailable", st, [])

/-- `_create_quota_exceeded_response`. -/
def quotaExceededResponse (now : String) : Resp :=
  { success := false,
    response := "I'm currently experiencing API limitations with my AI service. However, I can still help you with Telkom technical support! \n\nFor immediate assistance:\n• Internet issues: Try restarting your router (unplug for 30 seconds)\n• Slow speeds: Check if other devices have the same issue\n• Wi-Fi problems: Move closer to router or check password\n• Email setup: Use these settings - SMTP: smtp.telkom.net, Port: 587\n\nFor complex issues, please call Telkom support at 10210 or visit a Telkom store.\n\nWould you like me to provide more specific troubleshooting steps?",
    model_used := some "fallback_mode",
    error_type := some "quota_exceeded",
    timestamp := now }

/-- `_create_error_response` (OpenAI-compatible variant). -/
def oaiErrorResponse (error : String) (now : String) : Resp :=
  { success := false,
    error := some error,
    response := "I'm sorry, I'm having trouble processing your request right now. Please try again in a moment, or contact Telkom support directly for immediate assistance.",
    timestamp := now }

/-- The `messages` payload `process_text_message` assembles: the system
prompt, then `conversation_history[-6:]`, then the user message. -/
def oaiTextMessages (message : String) (conversationHistory : List RoleMsg) :
    List RoleMsg :=
  ("system", some telkomSystemPrompt) ::
    (pyLast 6 conversationHistory ++ [("user", some message)])

/-- `process_text_message`: short-circuit to the canned quota response while
unavailable; otherwise detect the language, pick the model, assemble
`[system] ++ history[-6:] ++ [user]`, call `_make_api_call`, and normalize.
The `except` clause re-checks the quota signature (clearing the flag and
returning the canned response) and otherwise returns the standard error
response.  Returns the response, the updated state, and the list of network
attempts made. -/
def oaiProcessTextMessage (st : OAIState) (o : Oracle) (message : String)
    (conversationHistory : List RoleMsg) (model? : Option String)
    (language? : Option String) (now : String) :
    Resp × OAIState × List String :=
  if st.api_available then
    let language := language?.getD (detect_language message)
    let modelName := model?.getD costEfficientModel
    let msgs : List RoleMsg := oaiTextMessages message conversationHistory
    match makeApiCall st o modelName msgs with
    | (.ok content, st2, tries) =>
      ({ success := true, response := content, model_used := some modelName,
         detected_language := some language, timestamp := now }, st2, tries)
    | (.error e, st2, tries) =>
      if quotaSig e then
        (quotaExceededResponse now, { api_available := false }, tries)
      else (oaiErrorResponse e now, st2, tries)
  else (quotaExceededResponse now, st, [])

/-- The `combined_message` f-string of the OpenAI-compatible
`process_pdf_document`, transcribed verbatim (including its indentation and
the inline `\x23 Limit` remark, which is part of the string literal): the
extracted PDF text is sliced to its first 2000 characters. -/
def oaiPdfCombinedMessage (textMessage pdfText : String) : String :=
  "\n            User message: " ++ textMessage ++
  "\n            \n            PDF Content Summary:\n            " ++
  pySlice pdfText 2000 ++
  "  # Limit to first 2000 characters\n            \n            Please analyze this document and help with any Telkom technical issues mentioned.\n            "

/-- `process_pdf_document` (OpenAI-compatible variant, routed through
`process_text_message` with the primary model).  `pdfText` is the result of
`_extract_pdf_text` (file reading is environmental).  The success wrapper
reads `response['model_used']`, which is absent from the standard error
response dict: that Python `KeyError` is caught by the enclosing `except`
and normalized. -/
def oaiProcessPdfDocument (st : OAIState) (o : Oracle) (pdfText : String)
    (textMessage : String) (now : String) : Resp × OAIState × List String :=
  let combined := oaiPdfCombinedMessage textMessage pdfText
  let r := oaiProcessTextMessage st o combined [] (some primaryModel) none now
  match r.1.model_used with
  | some mu =>
    ({ success := true, response := r.1.response, model_used := some mu,
       message_type := some "pdf_analysis",
       pdf_text_length := some pdfText.length, timestamp := now },
     r.2.1, r.2.2)
  | none => (oaiErrorResponse "'model_used'" now, r.2.1, r.2.2)

/-- `process_image_message`: base64-encode the image (`imageData` is the
outcome of reading the file; a raised error is normalized by the enclosing
`except`), build the vision request and call `_make_api_call`.  The binary
`image_url` part of the user content is opaque to every claim and is elided
from the modelled messages. -/
def oaiProcessImageMessage (st : OAIState) (o : Oracle)
    (imageData : Except String String) (textMessage : String)
    (model? : Option String) (now : String) : Resp × OAIState × List String :=
  let modelName := model?.getD visionModel
  match imageData with
  | .error e => (oaiErrorResponse e now, st, [])
  | .ok _ =>
    let userText := if textMessage = "" then
      "Analyze this image for technical issues or information that might help with Telkom technical support."
      else textMessage
    let msgs : List RoleMsg :=
      [("system", some telkomSystemPrompt), ("user", some userText)]
    match makeApiCall st o modelName msgs with
    | (.ok content, st2, tries) =>
      ({ success := true, response := content, model_used := some modelName,
         message_type := some "image_analysis", timestamp := now },
       st2, tries)
    | (.error e, st2, tries) => (oaiErrorResponse e now, st2, tries)

/-- `process_audio_message` (OpenAI-compatible, transcribe-then-text):
`transcribeResult` is the Whisper transcription call's outcome.  The success
wrapper reads `text_response['model_used']`, absent from the standard error
response dict; that `KeyError` is caught by the enclosing `except` and
normalized. -/
def oaiProcessAudioMessage (st : OAIState) (o : Oracle)
    (transcribeResult : Except String String) (now : String) :
    Resp × OAIState × List String :=
  match transcribeResult with
  | .error e => (oaiErrorResponse e now, st, [])
  | .ok t =>
    let r := oaiProcessTextMessage st o t [] none none now
    match r.1.model_used with
    | some mu =>
      ({ success := true, transcription := some t, response := r.1.response,
         model_used := some (audioModel ++ " + " ++ mu),
         detected_language := r.1.detected_language,
         message_type := some "voice_message", timestamp := now },
       r.2.1, r.2.2)
    | none => (oaiErrorResponse "'model_used'" now, r.2.1, r.2.2)

/-! ## Session-store messages (`app.py`).

A stored chat message is a Python dict.  The `text_content` and `file_path`
keys are present only in some message variants; `text_content` can moreover
be present with value `None` (file upload without accompanying text), which
`dict.get` with a default does NOT replace — hence the nested
`Option (Option String)`: `none` = key absent, `some none` = key present
with value `None`, `some (some s)` = key present with a string. -/

structure ChatMsg where
  id : Nat
  type : String
  content : String
  message_type : String
  text_content : Option (Option String) := none
  file_path : Option String := none
  timestamp : String
deriving DecidableEq, Repr

/-- Python `msg.get('text_content', msg['content'])`: the default applies
only when the key is absent; a stored `None` is returned as-is. -/
def pyGetTextContent (m : ChatMsg) : Option String :=
  match m.text_content with
  | none => some m.content
  | some v => v

/-! ## Gemini adapter (`gemini_integration.py`). -/

/-- `_create_error_response` (Gemini variant). -/
def gemErrorResponse (error : String) (now : String) : Resp :=
  { success := false,
    error := some error,
    response := "I'm sorry, I'm having trouble processing your request right now. Please try again or contact Telkom support directly.",
    timestamp := now }

/-- `_format_history`: role is `'user'` for user messages and `'model'`
otherwise; content is `msg.get('text_content', msg.get('content', ''))`
(so a `text_content` key holding `None` yields `None`).  No truncation is
applied here. -/
def formatHistory (history : List ChatMsg) : List RoleMsg :=
  history.map (fun m =>
    ((if m.type == "user" then "user" else "model"), pyGetTextContent m))

/-- `self.supported_audio_formats`, extension to MIME type, in insertion
order. -/
def supportedAudioFormats : List (String × String) :=
  [(".wav", "audio/wav"), (".mp3", "audio/mp3"),
   (".ogg", "audio/ogg"), (".webm", "audio/webm")]

/-- The observable attributes of the audio file on disk: existence, size in
bytes (`os.path.getsize`), and the extension produced by
`os.path.splitext(audio_path.lower())` (empty when the name has no dot).
These are environmental inputs read through OS calls. -/
structure AudioFileInfo where
  fileFound : Bool
  size : Nat
  ext : String
deriving DecidableEq, Repr

/-- The result dict of `_validate_audio_file`. -/
inductive AudioValidation where
  | invalid (error : String)
  | valid (mime_type : String) (size : Nat) (ext : String)
deriving DecidableEq, Repr

/-- `_validate_audio_file`, following the source's check order: existence,
then size above the 20MB bound (`20 * 1024 * 1024`, strict), then emptiness,
then membership of the extension in the supported-format dict, finally the
MIME lookup. -/
def validateAudioFile (path : String) (f : AudioFileInfo) : AudioValidation :=
  if ¬ f.fileFound then
    .invalid ("Audio file not found: " ++ path)
  else if f.size > 20 * 1024 * 1024 then
    .invalid "Audio file too large (max 20MB)"
  else if f.size == 0 then
    .invalid "Audio file is empty"
  else
    match (supportedAudioFormats.lookup f.ext) with
    | none => .invalid ("Unsupported audio format: " ++ f.ext ++ ". Supported: .wav, .mp3, .ogg, .webm")
    | some mime => .valid mime f.size f.ext

/-- The environment of the Gemini audio path beyond validation: the upload
call's outcome, the final state name the polling loop observes for the
uploaded file (the fixed-interval sleeps are wall-clock and unobservable
here, so the loop is abstracted to the state it exits with), and the chat
send outcome. -/
structure GemAudioEnv where
  uploadResult : Except String String
  finalState : String
  sendResult : String → Except String String

/-- `process_audio_message` (Gemini): validate first and return a normalized
failure without any upload when invalid; otherwise upload (failures
normalized), check the post-polling file state (`PROCESSING` = timeout,
`FAILED`, anything not `ACTIVE` = not ready), send the multimodal request,
and normalize.  The second component counts upload attempts. -/
def gemProcessAudioMessage (path : String) (f : AudioFileInfo)
    (env : GemAudioEnv) (textMessage : String) (now : String) : Resp × Nat :=
  match validateAudioFile path f with
  | .invalid err => (gemErrorResponse err now, 0)
  | .valid mime size _ =>
    match env.uploadResult with
    | .error e =>
      (gemErrorResponse ("Failed to upload audio file: " ++ e) now, 1)
    | .ok _ =>
      if env.finalState == "PROCESSING" then
        (gemErrorResponse "Audio processing timeout after 60s" now, 1)
      else if env.finalState == "FAILED" then
        (gemErrorResponse "Audio file processing failed - file may be corrupted or in unsupported format" now, 1)
      else if env.finalState != "ACTIVE" then
        (gemErrorResponse ("Audio file not ready: " ++ env.finalState) now, 1)
      else
        let userPrompt := if textMessage = "" then
          "Please transcribe and analyze this audio message. If you hear any Telkom technical support issues or questions, provide helpful troubleshooting assistance."
          else textMessage
        match env.sendResult userPrompt with
        | .error e => (gemErrorResponse e now, 1)
        | .ok text =>
          ({ success := true, response := text,
             model_used := some "gemini-2.0-flash",
             audio_info := some (size, mime), timestamp := now }, 1)

/-- The Gemini chat environment: the formatted history and the message parts
map to the reply text or a raised error. -/
abbrev GemOracle : Type := List RoleMsg → String → Except String String

/-- `process_text_message` (Gemini). -/
def gemProcessTextMessage (o : GemOracle) (message : String)
    (conversationHistory : List ChatMsg) (now : String) : Resp :=
  match o (formatHistory conversationHistory) message with
  | .ok text =>
    { success := true, response := text,
      model_used := some "gemini-2.0-flash", timestamp := now }
  | .error e => gemErrorResponse e now

/-- `process_image_message` (Gemini): missing file raises
`FileNotFoundError` (normalized by the enclosing `except`); otherwise the
image plus the user's text (or the default prompt) is sent. -/
def gemProcessImageMessage (o : GemOracle) (imagePath : String)
    (imageFound : Bool) (textMessage : String)
    (conversationHistory : List ChatMsg) (now : String) : Resp :=
  if ¬ imageFound then
    gemErrorResponse ("Image file not found: " ++ imagePath) now
  else
    let userPrompt := if textMessage = "" then
      "Please analyze this image for any Telkom technical support issues or error messages."
      else textMessage
    gemProcessTextMessage o userPrompt conversationHistory now

/-- The `combined_message` f-string of the Gemini `process_pdf_document`,
transcribed verbatim: the extracted PDF text is sliced to its first 8000
characters. -/
def gemPdfCombinedMessage (textMessage pdfText : String) : String :=
  "\n            User message: " ++ textMessage ++
  "\n            \n            PDF Content:\n            " ++
  pySlice pdfText 8000 ++
  "\n            \n            Please analyze the document content and help with any Telkom technical issues mentioned.\n            "

/-- `process_pdf_document` (Gemini): missing file raises
`FileNotFoundError` (normalized); otherwise the extraction result is sliced
into the combined message and routed through `process_text_message`. -/
def gemProcessPdfDocument (o : GemOracle) (pdfPath : String)
    (pdfFound : Bool) (pdfText : String) (textMessage : String)
    (conversationHistory : List ChatMsg) (now : String) : Resp :=
  if ¬ pdfFound then
    gemErrorResponse ("PDF file not found: " ++ pdfPath) now
  else
    gemProcessTextMessage o (gemPdfCombinedMessage textMessage pdfText)
      conversationHistory now

/-! ## Route layer (`app.py`): file whitelisting, context building, the
session store and `send_message`. -/

/-- `ALLOWED_EXTENSIONS`. -/
def allowedExtensions : List String :=
  ["txt", "pdf", "png", "jpg", "jpeg", "gif", "mp4", "avi", "mov",
   "wav", "mp3", "ogg", "webm"]

/-- `filename.rsplit('.', 1)[1]`: everything after the last dot. -/
def extAfterLastDot (s : String) : String :=
  String.mk ((s.toList.reverse.takeWhile (fun c => c ≠ '.')).reverse)

/-- `allowed_file`: the name contains a dot and its lowercased final
extension is whitelisted. -/
def allowed_file (filename : String) : Bool :=
  filename.toList.contains '.' &&
    allowedExtensions.contains (pyLower (extAfterLastDot filename))

/-- `get_file_type`: classify by extension (empty when the name has no
dot). -/
def getFileType (filename : String) : String :=
  let ext := if filename.toList.contains '.'
    then pyLower (extAfterLastDot filename) else ""
  if ["jpg", "jpeg", "png", "gif"].contains ext then "image"
  else if ["mp4", "avi", "mov"].contains ext then "video"
  else if ["wav", "mp3", "ogg", "webm"].contains ext then "audio"
  else if ext == "pdf" then "pdf"
  else "document"

/-- The history-shaping loop of `generate_ai_response`
(`app.py` lines 62–76): take the last 6 stored messages; a `user` message
contributes role `"user"` with `msg.get('text_content', msg['content'])`
(which is Python `None` when the key holds `None`); an `ai` message
contributes role `"assistant"` with `msg['content']`; anything else is
skipped. -/
def buildContext (history : List ChatMsg) : List RoleMsg :=
  (pyLast 6 history).foldl (fun acc m =>
    if m.type == "user" then acc ++ [("user", pyGetTextContent m)]
    else if m.type == "ai" then acc ++ [("assistant", some m.content)]
    else acc) []

/-- `simulate_ai_response_fallback` (demo mode, when the OpenAI client is
not initialized). -/
def simulateAiResponseFallback (message : String) (messageType : String) :
    String :=
  let messageLower := pyLower message
  if messageType == "voice" then
    "I've received your voice message. In full mode, I would transcribe and analyze your audio. Currently running in demo mode."
  else if ["image", "video", "pdf", "document"].contains messageType then
    "I've received your " ++ messageType ++ ". In full mode, I would analyze this content for you. Currently running in demo mode."
  else if ["internet", "connection", "wifi", "slow", "not working"].any
      (fun w => pyContains w messageLower) then
    "I understand you're having internet connectivity issues. Let me help you troubleshoot this step by step:\n\n1. Please check if all cables are securely connected\n2. Try restarting your router by unplugging it for 30 seconds\n3. Check if other devices can connect to the internet\n\nCan you tell me which step you'd like to try first?"
  else if ["hello", "hi", "help", "start"].any
      (fun w => pyContains w messageLower) then
    "Hello! I'm T-Help, your Telkom technical assistant. I'm currently running in demo mode. For full AI capabilities, please ensure your OpenAI API key is configured. How can I help you today?"
  else
    "I'm here to help with your Telkom technical issues. Currently running in demo mode - for full AI capabilities, please configure your OpenAI API key. Can you describe the problem you're experiencing?"

/-- The environmental inputs `generate_ai_response` consumes besides the
chat state: the provider network, the Whisper transcription outcome, the
image file bytes read, and the PDF extraction result. -/
structure AppEnv where
  oracle : Oracle
  transcribeResult : Except String String
  imageData : Except String String
  pdfText : String

/-- `generate_ai_response`: demo fallback without a client; otherwise shape
the session history, dispatch on the modality tag, and flatten the
normalized response into a display string (`response['response']` on
success, an apology carrying `response.get('error', 'Unknown error')`
otherwise).  Returns the reply text and the updated adapter state. -/
def generateAiResponse (client : Option OAIState) (env : AppEnv)
    (sessionMsgs : Option (List ChatMsg)) (messageContent : String)
    (messageType : String) (filePath : Option String) (now : String) :
    String × Option OAIState :=
  match client with
  | none => (simulateAiResponseFallback messageContent messageType, none)
  | some st =>
    let conversationHistory := (sessionMsgs.map buildContext).getD []
    let r :=
      if messageType == "image" && filePath.isSome then
        let x := oaiProcessImageMessage st env.oracle env.imageData
          messageContent none now
        (x.1, x.2.1)
      else if messageType == "audio" && filePath.isSome then
        let x := oaiProcessAudioMessage st env.oracle env.transcribeResult now
        (x.1, x.2.1)
      else if messageType == "pdf" && filePath.isSome then
        let x := oaiProcessPdfDocument st env.oracle env.pdfText
          messageContent now
        (x.1, x.2.1)
      else
        let x := oaiProcessTextMessage st env.oracle messageContent
          conversationHistory none none now
        (x.1, x.2.1)
    if r.1.success then (r.1.response, some r.2)
    else
      ("I apologize, I'm experiencing technical difficulties: " ++
        r.1.error.getD "Unknown error" ++
        ". Please try again or contact Telkom support directly.",
       some r.2)

/-- `chat_sessions`: the process-wide map from session id to message
list. -/
def Store : Type := String → Option (List ChatMsg)

def emptyStore : Store := fun _ => none

def storeSet (s : Store) (k : String) (v : List ChatMsg) : Store :=
  fun k' => if k' = k then some v else s k'

/-- The parts of the inbound request `send_message` reads: the optional
`session_id` form field, the `message` form field, and the filenames of the
`voice_data` and `file` entries of `request.files` when those keys are
present (werkzeug `FileStorage` truthiness is its filename's
truthiness). -/
structure Request where
  session_id : Option String := none
  message : String := ""
  voice_data : Option String := none
  file : Option String := none

/-- The route's outcome: the success JSON payload, the no-content error
JSON, or Python `None` (the fall-through when a present upload fails its
inner check, which Flask then rejects — observable as no JSON reply). -/
inductive SendResult where
  | ok (user_message ai_message : ChatMsg) (session_id : String)
  | errNoContent
  | pyNone
deriving DecidableEq, Repr

/-- `send_message`: ensure the session entry exists (this mutation happens
before any content validation), then dispatch on voice / file / text.
`genId` models `str(uuid.uuid4())` (the default for a missing session_id),
`voiceUuid`/`uploadUuid` the generated file-name uuids, `secured` the
external `werkzeug.utils.secure_filename` sanitizer, `now` the isoformat
timestamp passed to the adapter and `nowHM` the `%H:%M` display timestamp.
Returns the route result, the updated store and the updated adapter
state. -/
def sendMessage (client : Option OAIState) (env : AppEnv) (store : Store)
    (genId voiceUuid uploadUuid : String) (secured : String → String)
    (req : Request) (now nowHM : String) :
    SendResult × Store × Option OAIState :=
  let sid := req.session_id.getD genId
  let msgs0 := (store sid).getD []
  let store1 := if (store sid).isSome then store else storeSet store sid []
  let text := pyStrip req.message
  let histFor := fun (msgs : List ChatMsg) =>
    if sid = "" then none else some msgs
  match req.voice_data with
  | some vfName =>
    if vfName ≠ "" then
      let voicePath := "uploads/voice_" ++ voiceUuid ++ ".webm"
      let userMsg : ChatMsg :=
        { id := msgs0.length + 1, type := "user", content := "🎵 Voice message",
          message_type := "voice", file_path := some voicePath,
          timestamp := nowHM }
      let msgs1 := msgs0 ++ [userMsg]
      let store2 := storeSet store1 sid msgs1
      let ai := generateAiResponse client env (histFor msgs1)
        "Voice message received" "audio" (some voicePath) now
      let aiMsg : ChatMsg :=
        { id := msgs1.length + 1, type := "ai", content := ai.1,
          message_type := "text", timestamp := nowHM }
      (SendResult.ok userMsg aiMsg sid,
       storeSet store2 sid (msgs1 ++ [aiMsg]), ai.2)
    else (SendResult.pyNone, store1, client)
  | none =>
    match req.file with
    | some fname =>
      if fname ≠ "" && allowed_file fname then
        let filename := secured fname
        let filePath := "uploads/" ++ uploadUuid ++ "_" ++ filename
        let fileType := getFileType filename
        let content := if text ≠ "" then text ++ "\n📎 " ++ filename
          else "📎 " ++ filename
        let messageForAi := if text ≠ "" then text
          else "Analyze this " ++ fileType ++ ": " ++ filename
        let userMsg : ChatMsg :=
          { id := msgs0.length + 1, type := "user", content := content,
            message_type := fileType, file_path := some filePath,
            text_content := some (if text ≠ "" then some text else none),
            timestamp := nowHM }
        let msgs1 := msgs0 ++ [userMsg]
        let store2 := storeSet store1 sid msgs1
        let ai := generateAiResponse client env (histFor msgs1)
          messageForAi fileType (some filePath) now
        let aiMsg : ChatMsg :=
          { id := msgs1.length + 1, type := "ai", content := ai.1,
            message_type := "text", timestamp := nowHM }
        (SendResult.ok userMsg aiMsg sid,
         storeSet store2 sid (msgs1 ++ [aiMsg]), ai.2)
      else (SendResult.pyNone, store1, client)
    | none =>
      if text ≠ "" then
        let userMsg : ChatMsg :=
          { id := msgs0.length + 1, type := "user", content := text,
            message_type := "text", timestamp := nowHM }
        let msgs1 := msgs0 ++ [userMsg]
        let store2 := storeSet store1 sid msgs1
        let ai := generateAiResponse client env (histFor msgs1) text "text"
          none now
        let aiMsg : ChatMsg :=
          { id := msgs1.length + 1, type := "ai", content := ai.1,
            message_type := "text", timestamp := nowHM }
        (SendResult.ok userMsg aiMsg sid,
         storeSet store2 sid (msgs1 ++ [aiMsg]), ai.2)
      else (SendResult.errNoContent, store1, client)

/-! ## Support definitions for the theorems: iterated calls, sequence-number
well-formedness, response shapes, and claim-worded comparison definitions. -/

/-- The per-call inputs of one `process_text_message` invocation in a call
sequence. -/
structure CallArgs where
  oracle : Oracle
  message : String
  history : List RoleMsg
  model? : Option String := none
  language? : Option String := none
  now : String

/-- Run `n` consecutive `process_text_message` calls, threading the adapter
state; returns the responses in order, the final state, and the total number
of network attempts made. -/
def runCalls (st : OAIState) (calls : Nat → CallArgs) : Nat →
    List Resp × OAIState × Nat
  | 0 => ([], st, 0)
  | n + 1 =>
    let c := calls 0
    let r := oaiProcessTextMessage st c.oracle c.message c.history c.model?
      c.language? c.now
    let rest := runCalls r.2.1 (fun i => calls (i + 1)) n
    (r.1 :: rest.1, rest.2.1, r.2.2.length + rest.2.2)

/-- Sequence numbers of a stored session are exactly `1, 2, …, n` in order:
strictly increasing and gapless from 1. -/
def seqOk (msgs : List ChatMsg) : Prop :=
  msgs.map (·.id) = List.range' 1 msgs.length

instance : DecidablePred seqOk := fun msgs =>
  inferInstanceAs (Decidable (msgs.map (·.id) = List.range' 1 msgs.length))

/-- The success shape of a normalized response: `success: true` with a
`model_used` field. -/
def okShape (r : Resp) : Prop :=
  r.success = true ∧ r.model_used.isSome = true

/-- The standard failure shape: `success: false` carrying the stringified
cause in `error`. -/
def errShape (r : Resp) : Prop :=
  r.success = false ∧ r.error.isSome = true

/-- The canned quota-exceeded failure shape: `success: false`, no `error`
key, `error_type: 'quota_exceeded'`. -/
def quotaShape (r : Resp) : Prop :=
  r.success = false ∧ r.error = none ∧ r.error_type = some "quota_exceeded"

/-- Modelled from the spec: the claim's version of the OpenAI-variant PDF
prompt, whose extracted text is truncated to a claimed budget of 4000 or
8000 characters (the source uses 2000); used only to compare against
`oaiPdfCombinedMessage`. -/
def oaiPdfCombinedMessageClaimed (budget : Nat) (textMessage pdfText : String) :
    String :=
  "\n            User message: " ++ textMessage ++
  "\n            \n            PDF Content Summary:\n            " ++
  pySlice pdfText budget ++
  "  # Limit to first 2000 characters\n            \n            Please analyze this document and help with any Telkom technical issues mentioned.\n            "

/-- The shape of one shaped context entry, as a function of one stored
message: the characterization the context-builder theorem proves. -/
def shapeOne (m : ChatMsg) : Option RoleMsg :=
  if m.type == "user" then some ("user", pyGetTextContent m)
  else if m.type == "ai" then some ("assistant", some m.content)
  else none

/-- Modelled from the spec: the claim's content rule for the context
builder — `content = text_content if present else display_content`, where a
`text_content` key holding `None` counts as absent; used only to compare
against `buildContext`. -/
def buildContextClaimed (history : List ChatMsg) : List RoleMsg :=
  (pyLast 6 history).foldl (fun acc m =>
    if m.type == "user" then
      acc ++ [("user", some ((m.text_content.getD none).getD m.content))]
    else if m.type == "ai" then acc ++ [("assistant", some m.content)]
    else acc) []

/-- A stored file-upload message with no accompanying text, as the route
layer creates it (`'text_content': None`). -/
def fileMsgNoText : ChatMsg :=
  { id := 1, type := "user", content := "📎 report.pdf", message_type := "pdf",
    text_content := some none, file_path := some "uploads/u_report.pdf",
    timestamp := "12:00" }

/-- A stored file-upload message with accompanying text `"hello"`. -/
def fileMsgWithText : ChatMsg :=
  { id := 1, type := "user", content := "hello\n📎 report.pdf",
    message_type := "pdf", text_content := some (some "hello"),
    file_path := some "uploads/u_report.pdf", timestamp := "12:00" }

/-! # Theorems -/

/-- Truncating an already-truncated string is the identity. -/
theorem pySlice_pySlice (s : String) (n : Nat) :
    pySlice (pySlice s n) n = pySlice s n := by
  unfold pySlice
  congr 1
  rw [show (String.mk (s.toList.take n)).toList = s.toList.take n from rfl]
  rw [List.take_take]
  simp

/-- C9: `detect_language` returns a language whose keyword list attains the
highest substring-occurrence count against the lowercased input, and
returns english when the input is empty or the highest score is zero. -/
theorem detect_language_picks_max (text : String) :
    (text = "" → detect_language text = "english") ∧
    (scoreOf text "afrikaans" = 0 ∧ scoreOf text "zulu" = 0 ∧
       scoreOf text "english" = 0 → detect_language text = "english") ∧
    (0 < max (scoreOf text "afrikaans")
        (max (scoreOf text "zulu") (scoreOf text "english")) →
      detect_language text ∈ (["afrikaans", "zulu", "english"] : List String) ∧
      scoreOf text (detect_language text) =
        max (scoreOf text "afrikaans")
          (max (scoreOf text "zulu") (scoreOf text "english"))) := by
  by_cases h : text = ""
  · subst h
    refine ⟨fun _ => rfl, fun _ => rfl, fun hpos => absurd hpos (by decide)⟩
  · simp only [detect_language, if_neg h, scoreOf, languagePatterns, List.lookup,
      pyMaxByValue, List.map, List.foldl, List.headD, Option.getD, beq_iff_eq,
      reduceIte]
    refine ⟨fun hc => absurd hc h, ?_, ?_⟩
    · rintro ⟨ha, hz, he⟩
      split_ifs <;> simp_all
    · intro hpos
      split_ifs <;>
        simp_all [scoreOf, languagePatterns, List.lookup] <;> omega

/-- Witness for C9 at the concrete input `"ek the"` (maximal score 1,
attained by afrikaans). -/
theorem detect_language_picks_max_witness :
    detect_language "ek the" ∈ (["afrikaans", "zulu", "english"] : List String) ∧
    scoreOf "ek the" (detect_language "ek the") =
      max (scoreOf "ek the" "afrikaans")
        (max (scoreOf "ek the" "zulu") (scoreOf "ek the" "english")) :=
  (detect_language_picks_max "ek the").2.2 (by decide)

/-- C10 (amended): on a positive score tie between afrikaans and english
that the zulu score does not exceed, the insertion order of the pattern
dictionary (afrikaans first) decides: the result is afrikaans, never
english. -/
theorem detect_language_tie_order (text : String)
    (heq : scoreOf text "afrikaans" = scoreOf text "english")
    (hpos : 0 < scoreOf text "afrikaans")
    (hz : scoreOf text "zulu" ≤ scoreOf text "afrikaans") :
    detect_language text = "afrikaans" := by
  by_cases h : text = ""
  · subst h; exact absurd hpos (by decide)
  · simp only [detect_language, if_neg h, scoreOf, languagePatterns, List.lookup,
      pyMaxByValue, List.map, List.foldl, List.headD, Option.getD, beq_iff_eq,
      reduceIte] at heq hpos hz ⊢
    split_ifs <;> simp_all <;> omega

/-- Witness for C10's amended theorem at `"ek the"` (afrikaans 1,
english 1, zulu 0). -/
theorem detect_language_tie_order_witness :
    scoreOf "ek the" "afrikaans" = scoreOf "ek the" "english" ∧
    0 < scoreOf "ek the" "afrikaans" ∧
    scoreOf "ek the" "zulu" ≤ scoreOf "ek the" "afrikaans" ∧
    detect_language "ek the" = "afrikaans" :=
  ⟨by decide, by decide, by decide,
    detect_language_tie_order "ek the" (by decide) (by decide) (by decide)⟩

/-- Counterexample to C10 as stated: on `"ek the ngi uku isi"` the
afrikaans and english counts are equal and positive (both 1), yet the
detected language is zulu (count 3), not afrikaans. -/
theorem detect_language_tie_counterexample :
    scoreOf "ek the ngi uku isi" "afrikaans" =
        scoreOf "ek the ngi uku isi" "english" ∧
    0 < scoreOf "ek the ngi uku isi" "afrikaans" ∧
    detect_language "ek the ngi uku isi" ≠ "afrikaans" ∧
    detect_language "ek the ngi uku isi" = "zulu" := by decide

/-- C1: the quota state machine is one-way.  (i) While `api_available` is
false every `process_text_message` call returns the canned quota response,
leaves the state untouched and makes zero network attempts; (ii) the flag
never transitions back to available across a call; (iii) a call whose
`_make_api_call` raises a quota/429-signature error returns the canned
response with the flag cleared; (iv) any number of consecutive calls after
tripping — ten in particular — all return the canned response with zero
total network attempts. -/
theorem quota_trip_is_permanent :
    (∀ (st : OAIState) (o : Oracle) (m : String) (h : List RoleMsg)
        (mo lo : Option String) (now : String),
      st.api_available = false →
      oaiProcessTextMessage st o m h mo lo now =
        (quotaExceededResponse now, st, [])) ∧
    (∀ (st : OAIState) (o : Oracle) (m : String) (h : List RoleMsg)
        (mo lo : Option String) (now : String),
      ((oaiProcessTextMessage st o m h mo lo now).2.1).api_available = true →
      st.api_available = true) ∧
    (∀ (st : OAIState) (o : Oracle) (m : String) (h : List RoleMsg)
        (mo lo : Option String) (now : String) (e : String)
        (st' : OAIState) (tries : List String),
      makeApiCall st o (mo.getD costEfficientModel) (oaiTextMessages m h) =
          (.error e, st', tries) →
      quotaSig e = true →
      st.api_available = true →
      oaiProcessTextMessage st o m h mo lo now =
        (quotaExceededResponse now, ⟨false⟩, tries)) ∧
    (∀ (calls : Nat → CallArgs) (n : Nat),
      (runCalls ⟨false⟩ calls n).1 =
        (List.range n).map (fun i => quotaExceededResponse (calls i).now) ∧
      (runCalls ⟨false⟩ calls n).2.1 = ⟨false⟩ ∧
      (runCalls ⟨false⟩ calls n).2.2 = 0) := by
  have key : ∀ (o : Oracle) (m : String) (h : List RoleMsg)
      (mo lo : Option String) (now : String),
      oaiProcessTextMessage ⟨false⟩ o m h mo lo now =
        (quotaExceededResponse now, ⟨false⟩, []) := by
    intro o m h mo lo now
    simp [oaiProcessTextMessage]
  refine ⟨?_, ?_, ?_, ?_⟩
  · rintro ⟨av⟩ o m h mo lo now hav
    simp only at hav
    subst hav
    exact key o m h mo lo now
  · rintro ⟨av⟩ o m h mo lo now hres
    by_cases hav : av = true
    · simpa using hav
    · replace hav : av = false := by simpa using hav
      subst hav
      rw [key] at hres
      simp at hres
  · intro st o m h mo lo now e st' tries hcall hq hav
    simp only [oaiProcessTextMessage, hav, if_true, hcall, hq]
  · intro calls n
    induction n generalizing calls with
    | zero => simp [runCalls]
    | succ k ih =>
      have ih' := ih (fun i => calls (i + 1))
      simp only [runCalls, key, List.range_succ_eq_map, List.map_cons,
        List.map_map]
      refine ⟨?_, ?_, ?_⟩
      · rw [ih'.1]
        simp [Function.comp]
      · exact ih'.2.1
      · simpa using ih'.2.2

/-- Witness for C1 at concrete inputs: a tripped adapter answers one call
with the canned response and no attempt, and ten consecutive calls with ten
canned responses and zero attempts. -/
theorem quota_trip_is_permanent_witness :
    (⟨false⟩ : OAIState).api_available = false ∧
    oaiProcessTextMessage ⟨false⟩ (fun _ _ _ => .error "boom") "hi" [] none
        none "ts" = (quotaExceededResponse "ts", ⟨false⟩, []) ∧
    (runCalls ⟨false⟩
        (fun _ => ⟨fun _ _ _ => .error "boom", "hi", [], none, none, "ts"⟩)
        10).1 =
      (List.range 10).map (fun _ => quotaExceededResponse "ts") ∧
    (runCalls ⟨false⟩
        (fun _ => ⟨fun _ _ _ => .error "boom", "hi", [], none, none, "ts"⟩)
        10).2.2 = 0 :=
  ⟨rfl, quota_trip_is_permanent.1 ⟨false⟩ _ "hi" [] none none "ts" rfl,
    (quota_trip_is_permanent.2.2.2 _ 10).1,
    (quota_trip_is_permanent.2.2.2 _ 10).2.2⟩

/-- C3 (amended): with a requested model different from the primary one the
candidate list is `[cost_efficient, fallback]`.  (i) If the first candidate
raises a non-quota error and the second succeeds, the call succeeds with the
second candidate's reply, exactly those two attempts are made (no third
candidate), and `model_used` in the returned response is the model name
selected at the start of the operation — not the succeeding candidate's
identifier.  (ii) If every candidate fails with non-quota errors,
`_make_api_call` raises the last candidate's exception. -/
theorem fallback_chain_behavior :
    (∀ (st : OAIState) (o : Oracle) (m : String) (h : List RoleMsg)
        (mdl : String) (lo : Option String) (now : String) (e c : String),
      st.api_available = true →
      (mdl == primaryModel) = false →
      o 0 costEfficientModel (oaiTextMessages m h) = .error e →
      quotaSig e = false →
      o 1 fallbackModel (oaiTextMessages m h) = .ok c →
      oaiProcessTextMessage st o m h (some mdl) lo now =
        ({ success := true, response := c, model_used := some mdl,
           detected_language := some (lo.getD (detect_language m)),
           timestamp := now }, st, [costEfficientModel, fallbackModel])) ∧
    (∀ (st : OAIState) (o : Oracle) (mdl : String) (msgs : List RoleMsg)
        (e0 e1 : String),
      st.api_available = true →
      (mdl == primaryModel) = false →
      o 0 costEfficientModel msgs = .error e0 →
      quotaSig e0 = false →
      o 1 fallbackModel msgs = .error e1 →
      quotaSig e1 = false →
      makeApiCall st o mdl msgs =
        (.error e1, st, [costEfficientModel, fallbackModel])) := by
  constructor
  · intro st o m h mdl lo now e c hav hmdl h0 hq h1
    simp only [oaiProcessTextMessage, hav, if_true, makeApiCall,
      Option.getD_some, hmdl, Bool.false_eq_true, if_false, tryModels,
      List.getLastD, h0, h1, hq, Bool.false_eq_true]
    simp +decide
  · intro st o mdl msgs e0 e1 hav hmdl h0 hq0 h1 hq1
    simp only [makeApiCall, hav, if_true, hmdl, Bool.false_eq_true, if_false,
      tryModels, List.getLastD, h0, h1, hq0, hq1]
    simp +decide

/-- Witness for C3's amended theorem at a concrete oracle whose first
attempt fails with a non-quota error and whose second attempt succeeds, and
at one whose attempts both fail. -/
theorem fallback_chain_behavior_witness :
    oaiProcessTextMessage ⟨true⟩
        (fun idx _ _ => if idx = 0 then .error "boom" else .ok "hi")
        "msg" [] (some visionModel) none "ts" =
      ({ success := true, response := "hi", model_used := some visionModel,
         detected_language := some (detect_language "msg"),
         timestamp := "ts" }, ⟨true⟩,
       [costEfficientModel, fallbackModel]) ∧
    makeApiCall ⟨true⟩
        (fun idx _ _ => if idx = 0 then .error "boom" else .error "crash")
        visionModel [] =
      (.error "crash", ⟨true⟩, [costEfficientModel, fallbackModel]) :=
  ⟨fallback_chain_behavior.1 ⟨true⟩ _ "msg" [] visionModel none "ts" "boom"
      "hi" rfl (by decide) rfl (by decide) rfl,
    fallback_chain_behavior.2 ⟨true⟩ _ visionModel [] "boom" "crash" rfl
      (by decide) rfl (by decide) rfl (by decide)⟩

/-- Counterexample to C3 as stated: requesting the vision model (as the
image path does), the first candidate fails with a non-quota error and the
second candidate succeeds — yet `model_used` in the returned response is the
requested vision model, not the succeeding second candidate's identifier. -/
theorem fallback_model_used_counterexample :
    ((oaiProcessTextMessage ⟨true⟩
        (fun idx _ _ => if idx = 0 then .error "boom" else .ok "hi")
        "msg" [] (some visionModel) none "ts").1.success = true) ∧
    ((oaiProcessTextMessage ⟨true⟩
        (fun idx _ _ => if idx = 0 then .error "boom" else .ok "hi")
        "msg" [] (some visionModel) none "ts").2.2 =
      [costEfficientModel, fallbackModel]) ∧
    ((oaiProcessTextMessage ⟨true⟩
        (fun idx _ _ => if idx = 0 then .error "boom" else .ok "hi")
        "msg" [] (some visionModel) none "ts").1.model_used =
      some visionModel) ∧
    ((oaiProcessTextMessage ⟨true⟩
        (fun idx _ _ => if idx = 0 then .error "boom" else .ok "hi")
        "msg" [] (some visionModel) none "ts").1.model_used ≠
      some fallbackModel) := by decide

/-- C2 (amended): the PDF prompt routed through `ask_text` depends only on
the first 2000 extracted characters in the OpenAI-compatible variant and on
the first 8000 in the Gemini variant: slicing the extracted text to that
budget leaves the prompt unchanged, so no character beyond the budget ever
appears in it. -/
theorem pdf_prompt_truncation (t p : String) :
    oaiPdfCombinedMessage t p = oaiPdfCombinedMessage t (pySlice p 2000) ∧
    gemPdfCombinedMessage t p = gemPdfCombinedMessage t (pySlice p 8000) := by
  refine ⟨?_, ?_⟩ <;>
    simp [oaiPdfCombinedMessage, gemPdfCombinedMessage, pySlice_pySlice]

/-- Counterexample to C2 as stated: on an extraction of 2001 identical
characters, the OpenAI-variant prompt differs from the claimed prompt built
with a 4000-character budget (and from one with an 8000-character budget):
the source truncates at 2000. -/
theorem pdf_prompt_truncation_counterexample :
    oaiPdfCombinedMessage "" (String.mk (List.replicate 2001 'a')) ≠
      oaiPdfCombinedMessageClaimed 4000 "" (String.mk (List.replicate 2001 'a')) ∧
    oaiPdfCombinedMessage "" (String.mk (List.replicate 2001 'a')) ≠
      oaiPdfCombinedMessageClaimed 8000 "" (String.mk (List.replicate 2001 'a')) := by
  constructor <;>
  · intro h
    have h2 := congrArg String.length h
    simp only [oaiPdfCombinedMessage, oaiPdfCombinedMessageClaimed, pySlice,
      String.length_append, String.length_mk, String.toList, List.length_take,
      List.length_replicate] at h2
    omega

/-- C4 (amended): the shaped context of `generate_ai_response` holds at most
the last 6 stored messages, in their original order (it is the image of the
trailing window under a per-message shaping function); `user` maps to
`"user"`, `ai` maps to `"assistant"` (`"model"` in the Gemini formatter);
the shaped content equals `text_content` when that key holds a string and
equals the display content only when the key is absent — when the key holds
`None` (file upload without text) the shaped content is `None`, not the
display content. -/
theorem context_builder_shape (history : List ChatMsg) :
    (buildContext history).length ≤ 6 ∧
    buildContext history = (pyLast 6 history).filterMap shapeOne ∧
    (∀ m : ChatMsg, ∀ s : String, m.type = "user" →
      m.text_content = some (some s) → shapeOne m = some ("user", some s)) ∧
    (∀ m : ChatMsg, m.type = "user" → m.text_content = none →
      shapeOne m = some ("user", some m.content)) ∧
    (∀ m : ChatMsg, m.type = "ai" →
      shapeOne m = some ("assistant", some m.content)) ∧
    (∀ h : List ChatMsg, formatHistory h =
      h.map (fun m => ((if m.type == "user" then "user" else "model"),
        pyGetTextContent m))) := by
  have key : ∀ (xs : List ChatMsg) (acc : List RoleMsg),
      xs.foldl (fun acc m =>
        if m.type == "user" then acc ++ [("user", pyGetTextContent m)]
        else if m.type == "ai" then acc ++ [("assistant", some m.content)]
        else acc) acc = acc ++ xs.filterMap shapeOne := by
    intro xs
    induction xs with
    | nil => intro acc; simp
    | cons x xs ih =>
      intro acc
      rw [List.foldl_cons]
      by_cases h1 : x.type == "user"
      · have hs : shapeOne x = some ("user", pyGetTextContent x) := by
          simp [shapeOne, h1]
        rw [if_pos h1, ih, List.filterMap_cons, hs]
        simp
      · by_cases h2 : x.type == "ai"
        · have hs : shapeOne x = some ("assistant", some x.content) := by
            simp [shapeOne, h1, h2]
          rw [if_neg h1, if_pos h2, ih, List.filterMap_cons, hs]
          simp
        · have hs : shapeOne x = none := by
            simp [shapeOne, h1, h2]
          rw [if_neg h1, if_neg h2, ih, List.filterMap_cons, hs]
  have heq : buildContext history = (pyLast 6 history).filterMap shapeOne := by
    unfold buildContext
    simpa using key (pyLast 6 history) []
  refine ⟨?_, heq, ?_, ?_, ?_, fun _ => rfl⟩
  · rw [heq]
    calc ((pyLast 6 history).filterMap shapeOne).length
        ≤ (pyLast 6 history).length := List.length_filterMap_le _ _
      _ ≤ 6 := by simp [pyLast]; omega
  · intro m s hty htc
    simp [shapeOne, hty, pyGetTextContent, htc]
  · intro m hty htc
    simp [shapeOne, hty, pyGetTextContent, htc]
  · intro m hty
    by_cases h1 : m.type == "user"
    · simp [hty] at h1
    · simp [shapeOne, hty]

/-- Witness for C4's amended theorem: a user message whose `text_content`
holds `"hello"` shapes to content `"hello"`. -/
theorem context_builder_shape_witness :
    shapeOne fileMsgWithText = some ("user", some "hello") :=
  (context_builder_shape []).2.2.1 fileMsgWithText "hello" rfl rfl

/-- Counterexample to C4 as stated: a file-upload user message without
accompanying text stores `text_content = None`; the builder shapes its
content to `None`, not to the display content, because `dict.get`'s default
applies only to an absent key. -/
theorem context_builder_none_counterexample :
    buildContext [fileMsgNoText] = [("user", none)] ∧
    buildContextClaimed [fileMsgNoText] = [("user", some "📎 report.pdf")] ∧
    buildContext [fileMsgNoText] ≠ buildContextClaimed [fileMsgNoText] := by
  decide

/-- C5: the Gemini audio operation rejects — returning a normalized failure
and performing zero uploads — any file that is empty, exceeds the strict
20MB bound, or has an extension outside the supported set; a found,
non-empty, within-bound file with a supported extension validates with the
extension's mapped MIME type. -/
theorem audio_validation_gate (path : String) (f : AudioFileInfo)
    (env : GemAudioEnv) (tm now : String) :
    ((f.size = 0 ∨ f.size > 20 * 1024 * 1024 ∨
        supportedAudioFormats.lookup f.ext = none) →
      ∃ err, validateAudioFile path f = .invalid err ∧
        gemProcessAudioMessage path f env tm now =
          (gemErrorResponse err now, 0) ∧
        (gemProcessAudioMessage path f env tm now).1.success = false) ∧
    (f.fileFound = true → 0 < f.size → f.size ≤ 20 * 1024 * 1024 →
      ∀ mime, supportedAudioFormats.lookup f.ext = some mime →
        validateAudioFile path f = .valid mime f.size f.ext) := by
  constructor
  · intro hbad
    have hinv : ∃ err, validateAudioFile path f = .invalid err := by
      unfold validateAudioFile
      by_cases h1 : ¬ f.fileFound = true
      · rw [if_pos h1]; exact ⟨_, rfl⟩
      · rw [if_neg h1]
        by_cases h2 : f.size > 20 * 1024 * 1024
        · rw [if_pos h2]; exact ⟨_, rfl⟩
        · rw [if_neg h2]
          by_cases h3 : (f.size == 0) = true
          · rw [if_pos h3]; exact ⟨_, rfl⟩
          · rw [if_neg h3]
            rcases hbad with h0 | hmax | hnone
            · exact absurd (by simpa using h0) h3
            · exact absurd hmax h2
            · rw [hnone]; exact ⟨_, rfl⟩
    obtain ⟨err, herr⟩ := hinv
    have hrun : gemProcessAudioMessage path f env tm now =
        (gemErrorResponse err now, 0) := by
      unfold gemProcessAudioMessage
      rw [herr]
    exact ⟨err, herr, hrun, by rw [hrun]; rfl⟩
  · intro hf hpos hle mime hmime
    unfold validateAudioFile
    rw [if_neg (by simp [hf]), if_neg (by omega), if_neg (by simp; omega),
      hmime]

/-- Witness for C5 at concrete files: a zero-byte `.wav` is rejected with no
upload, and a 1000-byte `.mp3` validates with MIME `audio/mp3`. -/
theorem audio_validation_gate_witness :
    (∃ err, validateAudioFile "v.wav" ⟨true, 0, ".wav"⟩ = .invalid err ∧
      gemProcessAudioMessage "v.wav" ⟨true, 0, ".wav"⟩
          ⟨.ok "files/abc", "ACTIVE", fun _ => .ok "reply"⟩ "" "ts" =
        (gemErrorResponse err "ts", 0) ∧
      (gemProcessAudioMessage "v.wav" ⟨true, 0, ".wav"⟩
          ⟨.ok "files/abc", "ACTIVE", fun _ => .ok "reply"⟩ ""
          "ts").1.success = false) ∧
    validateAudioFile "v.mp3" ⟨true, 1000, ".mp3"⟩ =
      .valid "audio/mp3" 1000 ".mp3" :=
  ⟨(audio_validation_gate "v.wav" ⟨true, 0, ".wav"⟩
      ⟨.ok "files/abc", "ACTIVE", fun _ => .ok "reply"⟩ "" "ts").1
      (Or.inl rfl),
    (audio_validation_gate "v.mp3" ⟨true, 1000, ".mp3"⟩
      ⟨.ok "files/abc", "ACTIVE", fun _ => .ok "reply"⟩ "" "ts").2
      rfl (by decide) (by decide) "audio/mp3" rfl⟩

/-- C6 (amended): no adapter operation ever surfaces a raw exception; every
result is one of three normalized dict shapes: the success shape
(`success: true` with `model_used`), the standard failure shape
(`success: false` with the stringified cause under `error` and an apology
text), or — in the OpenAI-compatible text/pdf/audio paths only — the canned
quota-exceeded shape, which carries `error_type: 'quota_exceeded'` and
`model_used: 'fallback_mode'` but no `error` key. -/
theorem response_normalization :
    (∀ (st : OAIState) (o : Oracle) (m : String) (h : List RoleMsg)
        (mo lo : Option String) (now : String),
      okShape (oaiProcessTextMessage st o m h mo lo now).1 ∨
      errShape (oaiProcessTextMessage st o m h mo lo now).1 ∨
      quotaShape (oaiProcessTextMessage st o m h mo lo now).1) ∧
    (∀ (st : OAIState) (o : Oracle) (pdfText tm now : String),
      okShape (oaiProcessPdfDocument st o pdfText tm now).1 ∨
      errShape (oaiProcessPdfDocument st o pdfText tm now).1 ∨
      quotaShape (oaiProcessPdfDocument st o pdfText tm now).1) ∧
    (∀ (st : OAIState) (o : Oracle) (idata : Except String String)
        (tm : String) (mo : Option String) (now : String),
      okShape (oaiProcessImageMessage st o idata tm mo now).1 ∨
      errShape (oaiProcessImageMessage st o idata tm mo now).1 ∨
      quotaShape (oaiProcessImageMessage st o idata tm mo now).1) ∧
    (∀ (st : OAIState) (o : Oracle) (tr : Except String String) (now : String),
      okShape (oaiProcessAudioMessage st o tr now).1 ∨
      errShape (oaiProcessAudioMessage st o tr now).1 ∨
      quotaShape (oaiProcessAudioMessage st o tr now).1) ∧
    (∀ (go : GemOracle) (m : String) (hist : List ChatMsg) (now : String),
      okShape (gemProcessTextMessage go m hist now) ∨
      errShape (gemProcessTextMessage go m hist now)) ∧
    (∀ (go : GemOracle) (p : String) (found : Bool) (tm : String)
        (hist : List ChatMsg) (now : String),
      okShape (gemProcessImageMessage go p found tm hist now) ∨
      errShape (gemProcessImageMessage go p found tm hist now)) ∧
    (∀ (go : GemOracle) (p : String) (found : Bool) (pdfText tm : String)
        (hist : List ChatMsg) (now : String),
      okShape (gemProcessPdfDocument go p found pdfText tm hist now) ∨
      errShape (gemProcessPdfDocument go p found pdfText tm hist now)) ∧
    (∀ (path : String) (f : AudioFileInfo) (env : GemAudioEnv)
        (tm now : String),
      okShape (gemProcessAudioMessage path f env tm now).1 ∨
      errShape (gemProcessAudioMessage path f env tm now).1) := by
  have htext : ∀ (st : OAIState) (o : Oracle) (m : String) (h : List RoleMsg)
      (mo lo : Option String) (now : String),
      okShape (oaiProcessTextMessage st o m h mo lo now).1 ∨
      errShape (oaiProcessTextMessage st o m h mo lo now).1 ∨
      quotaShape (oaiProcessTextMessage st o m h mo lo now).1 := by
    intro st o m h mo lo now
    by_cases hav : st.api_available
    · rcases hres : makeApiCall st o (mo.getD costEfficientModel)
        (oaiTextMessages m h) with ⟨res, st2, tries⟩
      cases res with
      | ok c =>
        left
        simp [oaiProcessTextMessage, hav, hres, okShape]
      | error e =>
        by_cases hq : quotaSig e
        · right; right
          simp [oaiProcessTextMessage, hav, hres, hq, quotaShape,
            quotaExceededResponse]
        · right; left
          simp [oaiProcessTextMessage, hav, hres, hq, errShape,
            oaiErrorResponse]
    · right; right
      simp [oaiProcessTextMessage, hav, quotaShape, quotaExceededResponse]
  have hgemtext : ∀ (go : GemOracle) (m : String) (hist : List ChatMsg)
      (now : String),
      okShape (gemProcessTextMessage go m hist now) ∨
      errShape (gemProcessTextMessage go m hist now) := by
    intro go m hist now
    rcases hres : go (formatHistory hist) m with e | t
    · right; simp [gemProcessTextMessage, hres, errShape, gemErrorResponse]
    · left; simp [gemProcessTextMessage, hres, okShape]
  refine ⟨htext, ?_, ?_, ?_, hgemtext, ?_, ?_, ?_⟩
  · intro st o pdfText tm now
    rcases hmu : (oaiProcessTextMessage st o
        (oaiPdfCombinedMessage tm pdfText) [] (some primaryModel) none
        now).1.model_used with _ | mu
    · right; left
      simp [oaiProcessPdfDocument, hmu, errShape, oaiErrorResponse]
    · left
      simp [oaiProcessPdfDocument, hmu, okShape]
  · intro st o idata tm mo now
    rcases idata with e | d
    · right; left
      simp [oaiProcessImageMessage, errShape, oaiErrorResponse]
    · rcases hres : makeApiCall st o (mo.getD visionModel)
        [("system", some telkomSystemPrompt),
         ("user", some (if tm = "" then
           "Analyze this image for technical issues or information that might help with Telkom technical support."
           else tm))] with ⟨res, st2, tries⟩
      cases res with
      | ok c =>
        left
        simp [oaiProcessImageMessage, hres, okShape]
      | error e =>
        right; left
        simp [oaiProcessImageMessage, hres, errShape, oaiErrorResponse]
  · intro st o tr now
    rcases tr with e | t
    · right; left
      simp [oaiProcessAudioMessage, errShape, oaiErrorResponse]
    · rcases hmu : (oaiProcessTextMessage st o t [] none none
          now).1.model_used with _ | mu
      · right; left
        simp [oaiProcessAudioMessage, hmu, errShape, oaiErrorResponse]
      · left
        simp [oaiProcessAudioMessage, hmu, okShape]
  · intro go p found tm hist now
    by_cases hf : found
    · have := hgemtext go (if tm = "" then
        "Please analyze this image for any Telkom technical support issues or error messages."
        else tm) hist now
      simpa [gemProcessImageMessage, hf] using this
    · right
      simp [gemProcessImageMessage, hf, errShape, gemErrorResponse]
  · intro go p found pdfText tm hist now
    by_cases hf : found
    · have := hgemtext go (gemPdfCombinedMessage tm pdfText) hist now
      simpa [gemProcessPdfDocument, hf] using this
    · right
      simp [gemProcessPdfDocument, hf, errShape, gemErrorResponse]
  · intro path f env tm now
    rcases hval : validateAudioFile path f with err | ⟨mime, size, ext⟩
    · right
      simp [gemProcessAudioMessage, hval, errShape, gemErrorResponse]
    · rcases hup : env.uploadResult with e | nm
      · right
        simp [gemProcessAudioMessage, hval, hup, errShape, gemErrorResponse]
      · by_cases h1 : env.finalState == "PROCESSING"
        · right
          simp [gemProcessAudioMessage, hval, hup, h1, errShape,
            gemErrorResponse]
        · by_cases h2 : env.finalState == "FAILED"
          · right
            simp [gemProcessAudioMessage, hval, hup, h1, h2, errShape,
              gemErrorResponse]
          · by_cases h3 : env.finalState != "ACTIVE"
            · right
              simp [gemProcessAudioMessage, hval, hup, h1, h2, h3, errShape,
                gemErrorResponse]
            · rcases hsend : env.sendResult (if tm = "" then
                  "Please transcribe and analyze this audio message. If you hear any Telkom technical support issues or questions, provide helpful troubleshooting assistance."
                  else tm) with e | t
              · right
                simp [gemProcessAudioMessage, hval, hup, h1, h2, h3, hsend,
                  errShape, gemErrorResponse]
              · left
                simp [gemProcessAudioMessage, hval, hup, h1, h2, h3, hsend,
                  okShape]

/-- Counterexample to C6 as stated: a quota-tripped `ask_text` call returns
`success: false` with no `error` key at all (it carries `error_type`
instead), so the claimed failure shape — which always carries the
stringified cause under `error` — does not cover every failure result. -/
theorem response_error_field_counterexample :
    ((oaiProcessTextMessage ⟨false⟩ (fun _ _ _ => .error "x") "hi" [] none
        none "ts").1.success = false) ∧
    ((oaiProcessTextMessage ⟨false⟩ (fun _ _ _ => .error "x") "hi" [] none
        none "ts").1.error = none) ∧
    ((oaiProcessTextMessage ⟨false⟩ (fun _ _ _ => .error "x") "hi" [] none
        none "ts").1.error_type = some "quota_exceeded") := by decide

/-- Appending a user message with id `n+1` and an assistant message with id
`n+2` to a gapless session keeps it gapless. -/
theorem seqOk_append_two (msgs : List ChatMsg) (u a : ChatMsg)
    (hseq : seqOk msgs) (hu : u.id = msgs.length + 1)
    (ha : a.id = msgs.length + 2) : seqOk (msgs ++ [u, a]) := by
  unfold seqOk at hseq ⊢
  rw [List.map_append, hseq, List.length_append]
  have h2 : List.range' (1 + msgs.length) 2 =
      [msgs.length + 1, msgs.length + 2] := by
    simp [List.range']
    omega
  have h3 : List.range' 1 msgs.length ++ List.range' (1 + msgs.length) 2 =
      List.range' 1 (msgs.length + 2) := by
    simpa [Nat.add_comm] using List.range'_append 1 msgs.length 2 1
  rw [show List.map (fun x => x.id) [u, a] = [u.id, a.id] from rfl, hu, ha,
    ← h2, h3]
  simp

/-- C7: a text turn appends exactly a user message with sequence number
`n+1` and an assistant message with `n+2` to a session of `n` messages,
keeping numbering strictly increasing and gapless from 1; in particular a
new session's first `"hello"` turn (with a provider oracle that replies `c`)
leaves exactly two messages with ids 1 (user) and 2 (assistant), and the
assistant reply is the non-empty provider text. -/
theorem turn_sequence_numbers :
    (∀ (client : Option OAIState) (env : AppEnv) (store : Store)
        (genId vU uU : String) (secured : String → String)
        (sid text now nowHM : String) (msgs : List ChatMsg),
      store sid = some msgs → seqOk msgs → pyStrip text ≠ "" →
      ∃ u a : ChatMsg,
        (sendMessage client env store genId vU uU secured
          { session_id := some sid, message := text } now nowHM).1 =
          SendResult.ok u a sid ∧
        (sendMessage client env store genId vU uU secured
          { session_id := some sid, message := text } now nowHM).2.1 sid =
          some (msgs ++ [u, a]) ∧
        u.id = msgs.length + 1 ∧ a.id = msgs.length + 2 ∧
        u.type = "user" ∧ a.type = "ai" ∧ u.content = pyStrip text ∧
        seqOk (msgs ++ [u, a])) ∧
    (∀ (env : AppEnv) (genId vU uU : String) (secured : String → String)
        (now nowHM : String) (c : String),
      (∀ i mdl ms, env.oracle i mdl ms = .ok c) → c ≠ "" →
      (sendMessage (some ⟨true⟩) env emptyStore genId vU uU secured
          { session_id := some "s1", message := "hello" } now nowHM).1 =
        SendResult.ok ⟨1, "user", "hello", "text", none, none, nowHM⟩
          ⟨2, "ai", c, "text", none, none, nowHM⟩ "s1" ∧
      (sendMessage (some ⟨true⟩) env emptyStore genId vU uU secured
          { session_id := some "s1", message := "hello" } now nowHM).2.1
          "s1" =
        some [⟨1, "user", "hello", "text", none, none, nowHM⟩,
          ⟨2, "ai", c, "text", none, none, nowHM⟩] ∧
      c ≠ "") := by
  constructor
  · intro client env store genId vU uU secured sid text now nowHM msgs
      hstore hseq ht
    refine ⟨⟨msgs.length + 1, "user", pyStrip text, "text", none, none,
        nowHM⟩,
      ⟨msgs.length + 2, "ai",
        (generateAiResponse client env
          (if sid = "" then none
           else some (msgs ++ [⟨msgs.length + 1, "user", pyStrip text,
             "text", none, none, nowHM⟩]))
          (pyStrip text) "text" none now).1,
        "text", none, none, nowHM⟩,
      ?_, ?_, rfl, rfl, rfl, rfl, rfl, ?_⟩
    · simp [sendMessage, hstore, ht]
    · simp [sendMessage, hstore, ht, storeSet]
    · exact seqOk_append_two msgs _ _ hseq rfl rfl
  · intro env genId vU uU secured now nowHM c ho hc
    have hps : pyStrip "hello" = "hello" := by decide
    have hreply : generateAiResponse (some ⟨true⟩) env
        (some [⟨1, "user", "hello", "text", none, none, nowHM⟩])
        "hello" "text" none now = (c, some ⟨true⟩) := by
      simp [generateAiResponse, oaiProcessTextMessage, makeApiCall, tryModels,
        ho]
    refine ⟨?_, ?_, hc⟩ <;>
      simp [sendMessage, emptyStore, storeSet, hps, hreply]

/-- Witness for C7's scenario: a fresh session, `"hello"`, and a provider
that replies `"Hi there!"`. -/
theorem turn_sequence_numbers_witness :
    (sendMessage (some ⟨true⟩)
        ⟨fun _ _ _ => .ok "Hi there!", .error "t", .error "i", ""⟩ emptyStore
        "g" "v" "u" (fun s => s)
        { session_id := some "s1", message := "hello" } "now" "12:00").1 =
      SendResult.ok ⟨1, "user", "hello", "text", none, none, "12:00"⟩
        ⟨2, "ai", "Hi there!", "text", none, none, "12:00"⟩ "s1" ∧
    (sendMessage (some ⟨true⟩)
        ⟨fun _ _ _ => .ok "Hi there!", .error "t", .error "i", ""⟩ emptyStore
        "g" "v" "u" (fun s => s)
        { session_id := some "s1", message := "hello" } "now" "12:00").2.1
        "s1" =
      some [⟨1, "user", "hello", "text", none, none, "12:00"⟩,
        ⟨2, "ai", "Hi there!", "text", none, none, "12:00"⟩] ∧
    ("Hi there!" : String) ≠ "" :=
  turn_sequence_numbers.2
    ⟨fun _ _ _ => .ok "Hi there!", .error "t", .error "i", ""⟩
    "g" "v" "u" (fun s => s) "now" "12:00" "Hi there!" (fun _ _ _ => rfl)
    (by decide)

/-- C8 (amended): a file upload with a non-whitelisted extension is rejected
before any message is appended and before any provider call — the route
falls through returning Python `None` and the adapter state is untouched —
but the Session Store IS mutated for a fresh session id: an empty entry is
created before validation runs. -/
theorem upload_reject_gate (client : Option OAIState) (env : AppEnv)
    (store : Store) (genId vU uU : String) (secured : String → String)
    (sid fname text now nowHM : String)
    (hbad : allowed_file fname = false) :
    (sendMessage client env store genId vU uU secured
      { session_id := some sid, message := text, file := some fname }
      now nowHM).1 = SendResult.pyNone ∧
    (sendMessage client env store genId vU uU secured
      { session_id := some sid, message := text, file := some fname }
      now nowHM).2.1 sid = some ((store sid).getD []) ∧
    (∀ k, k ≠ sid →
      (sendMessage client env store genId vU uU secured
        { session_id := some sid, message := text, file := some fname }
        now nowHM).2.1 k = store k) ∧
    (sendMessage client env store genId vU uU secured
      { session_id := some sid, message := text, file := some fname }
      now nowHM).2.2 = client := by
  simp only [sendMessage, hbad, Bool.and_false, Bool.false_eq_true, if_false,
    Option.getD_some]
  refine ⟨trivial, ?_, ?_, trivial⟩
  · rcases hstore : store sid with _ | v <;>
      simp [hstore, storeSet]
  · intro k hk
    rcases hstore : store sid with _ | v <;>
      simp [hstore, storeSet, hk]

/-- Witness for C8's amended theorem at a `.exe` upload. -/
theorem upload_reject_gate_witness :
    (sendMessage none ⟨fun _ _ _ => .error "x", .error "t", .error "i", ""⟩
        emptyStore "g" "v" "u" (fun s => s)
        { session_id := some "s1", message := "", file := some "malware.exe" }
        "now" "12:00").1 = SendResult.pyNone ∧
    allowed_file "malware.exe" = false :=
  ⟨(upload_reject_gate none
      ⟨fun _ _ _ => .error "x", .error "t", .error "i", ""⟩
      emptyStore "g" "v" "u" (fun s => s) "s1" "malware.exe" "" "now" "12:00"
      (by decide)).1, by decide⟩

/-- Counterexample to C8 as stated: uploading `malware.exe` under a fresh
session id leaves the Session Store mutated — the previously absent session
id now maps to an empty history, because the entry is created before the
extension check. -/
theorem upload_reject_store_counterexample :
    ((sendMessage none ⟨fun _ _ _ => .error "x", .error "t", .error "i", ""⟩
        emptyStore "g" "v" "u" (fun s => s)
        { session_id := some "s1", message := "", file := some "malware.exe" }
        "now" "12:00").2.1 "s1" = some []) ∧
    emptyStore "s1" = none := by decide
